import Mathlib

/-!
Shallow embedding of the conversation state machine implemented in `src/bot.py`
(a Telegram listing-collection bot).  Transport concerns — telegram API objects,
keyboard rendering, logging, environment configuration — are external
collaborators; the model captures the per-user session record, the stage graph
with its per-stage handler functions, the validators and the submission builder,
as executable Lean definitions mirroring the Python control flow branch by
branch.  A user message is an `Event`, the handler outcome is a
`BotState × Reply` pair: the updated conversation state together with the
rendered instruction (prompt, dispatched submission, or termination).
-/

/-- The conversation stages of `bot.py` (`range(11)` minus the unused `START`). -/
inductive Stage
  | chooseCategory
  | getItemName
  | getPhotos
  | getDescription
  | getPrice
  | getCity
  | getDelivery
  | getPickupAddress
  | getContacts
  | confirm
deriving DecidableEq

/-- The per-user accumulated data, `context.user_data` in the source: a mapping
whose possible keys are fixed, so it is modelled as a record of `Option`s
(`none` = key absent). -/
structure Session where
  category : Option String
  item_name : Option String
  user_name : Option String
  photos : Option (List String)
  description : Option String
  price : Option String
  city : Option String
  delivery : Option String
  pickup_address : Option String
  contacts : Option String
deriving DecidableEq

/-- A fresh `user_data` dictionary: every key absent. -/
def emptySession : Session :=
  ⟨none, none, none, none, none, none, none, none, none, none⟩

/-- The final payload sent to the admin chat: the formatted message text plus the
photo file ids forwarded as a media group. -/
structure Submission where
  summaryText : String
  imageRefs : List String
deriving DecidableEq

/-- The outbound instruction produced by one event: a prompt at a stage, the
dispatched submission, a terminal outcome, or no message at all (branches of the
source that `return` a state without replying). -/
inductive Reply
  | showPrompt (stage : Stage) (text : String)
  | dispatch (sub : Submission)
  | terminated (reason : String)
  | silent
deriving DecidableEq

/-- An incoming user event: the `/start` entry command, a plain text message, or
a photo message carrying the file id the source stores (`photo[-1].file_id`). -/
inductive Event
  | entry
  | text (s : String)
  | image (fileId : String)
deriving DecidableEq

/-- The conversation state of one user: the `ConversationHandler` state
(`none` = no active conversation, i.e. `ConversationHandler.END`) plus the
persistent `user_data` record. -/
structure BotState where
  conv : Option Stage
  data : Session
deriving DecidableEq

/-- Keyboard button `"⬅️ Назад"` — the Back token. -/
def backBtn : String := "⬅️ Назад"

/-- Keyboard button `"❌ Отмена"` — the Cancel token used by every stage except Confirm. -/
def cancelBtn : String := "❌ Отмена"

/-- Keyboard button `"📤 Далее"` — the advance token of the Photos stage. -/
def nextBtn : String := "📤 Далее"

/-- Keyboard button `"❌ Нет информации"` — the no-description sentinel. -/
def noInfoBtn : String := "❌ Нет информации"

/-- Keyboard button `"🚗 Самовывоз"` — the pickup delivery option. -/
def pickupBtn : String := "🚗 Самовывоз"

/-- Keyboard button `"🏪 Доставка"` — the courier delivery option. -/
def deliverBtn : String := "🏪 Доставка"

/-- Keyboard button `"✅ Отправить заявку"` — the confirm token of the Confirm stage. -/
def sendBtn : String := "✅ Отправить заявку"

/-- Keyboard button `"❌ Отменить"` — the cancel token of the Confirm stage. -/
def cancelBtn2 : String := "❌ Отменить"

/-- Python `str.isdigit()` restricted to the decimal digits the price field can
meaningfully hold: nonempty and consisting of `0`-`9` only. -/
def pyIsdigit (s : String) : Bool :=
  !s.data.isEmpty && s.data.all Char.isDigit

/-- The numeric value Python `int` computes on a decimal digit string. -/
def digitsVal (s : String) : Nat :=
  s.data.foldl (fun n c => 10 * n + (c.toNat - 48)) 0

/-- `validate_price` from the source: `price.isdigit() and int(price) > 0`. -/
def validate_price (price : String) : Bool :=
  pyIsdigit price && decide (0 < digitsVal price)

/-- Python `str.strip()` on a character list: whitespace removed from both ends. -/
def pyStrip (l : List Char) : List Char :=
  ((l.dropWhile Char.isWhitespace).reverse.dropWhile Char.isWhitespace).reverse

/-- `validate_text` from the source: `min_len <= len(text.strip()) <= max_len`.
The Python defaults are `min_len=2, max_len=200`; this model always passes both
bounds explicitly (the source's call sites either use the defaults or pass both). -/
def validate_text (text : String) (min_len max_len : Nat) : Bool :=
  decide (min_len ≤ (pyStrip text.data).length) &&
  decide ((pyStrip text.data).length ≤ max_len)

/-- Character class `[\d\s\-\(\)]` of the phone regex. -/
def phoneChar (c : Char) : Bool :=
  c.isDigit || c.isWhitespace || c = '-' || c = '(' || c = ')'

/-- The part of the phone string matched against the repeated character class:
the regex `^\+?` consumes one leading `+` when present. -/
def phoneCore (l : List Char) : List Char :=
  match l with
  | c :: rest => if c = '+' then rest else c :: rest
  | [] => []

/-- `validate_phone` from the source: regex `^\+?[\d\s\-\(\)]{7,15}$` — an
optional leading `+` followed by 7 to 15 characters of the class above. -/
def validate_phone (phone : String) : Bool :=
  let core := phoneCore phone.data
  decide (7 ≤ core.length) && decide (core.length ≤ 15) && core.all phoneChar

/-- The `missing_fields` check of `confirm_application`: true iff one of the six
required keys is absent from `user_data`. -/
def requiredMissing (d : Session) : Bool :=
  d.item_name.isNone || d.category.isNone || d.price.isNone ||
  d.city.isNone || d.delivery.isNone || d.contacts.isNone

/-- The conditionally appended pickup-address line of both summary messages:
Python appends it iff `user_data.get('pickup_address')` is truthy, i.e. present
and a non-empty string. -/
def pickupLine (pickup : Option String) : String :=
  match pickup with
  | some a => if a = "" then "" else "\n🏠 *Адрес самовывоза:* " ++ a
  | none => ""

/-- The admin-chat message assembled in `confirm_application` (`''.join(message)`);
the pieces are grouped per field, which joins to the same string as the source's
list of f-strings. -/
def adminMessage (u iname cat descr pr ci del : String) (pickup : Option String)
    (cont : String) : String :=
  ("🛎 *Новая заявка!*\n\n👤 *Пользователь:* " ++ u) ++
  ("\n📌 *Товар:* " ++ iname) ++
  ("\n📦 *Категория:* " ++ cat) ++
  ("\n📝 *Описание:* " ++ descr) ++
  ("\n💰 *Цена:* " ++ pr ++ " руб.") ++
  ("\n🏙 *Город:* " ++ ci) ++
  ("\n🚚 *Доставка:* " ++ del) ++
  pickupLine pickup ++
  ("\n📞 *Контакты:* " ++ cont)

/-- The user-facing review summary assembled in `handle_contacts` (`''.join(summary)`). -/
def userSummary (u iname cat descr pr ci del : String) (pickup : Option String)
    (cont : String) : String :=
  ("📋 *Проверьте заявку:*\n\n👤 *Отправитель:* " ++ u) ++
  ("\n📌 *Товар:* " ++ iname) ++
  ("\n📦 *Категория:* " ++ cat) ++
  ("\n📝 *Описание:* " ++ descr) ++
  ("\n💰 *Цена:* " ++ pr ++ " руб.") ++
  ("\n🏙 *Город:* " ++ ci) ++
  ("\n🚚 *Доставка:* " ++ del) ++
  pickupLine pickup ++
  ("\n📞 *Контакты:* " ++ cont) ++
  "\n\nНажмите *✅ Отправить заявку* для подтверждения"

/-- `cancel` from the source: `context.user_data.clear()` and
`ConversationHandler.END`, with the terminal "cancelled" message. -/
def cancelApp : BotState × Reply :=
  (⟨none, emptySession⟩, Reply.terminated "cancelled")

/-- `handle_category`: any text other than Cancel is stored as the category
as-is (there is no Back branch and no option-set check at this stage). -/
def handle_category (d : Session) (t : String) : BotState × Reply :=
  if t = cancelBtn then cancelApp
  else
    (⟨some Stage.getItemName, { d with category := some t }⟩,
     Reply.showPrompt Stage.getItemName "✏️ Введите название товара (от 2 до 100 символов):")

/-- `handle_item_name`: Back, Cancel, then `validate_text` with the *default*
bounds 2..200 (the source calls `validate_text(update.message.text)` without
passing `max_len=100`); on success the source writes `item_name`, `user_name`
(the display label computed from the Telegram user, taken here as the `label`
argument) and resets `photos` to the empty list. -/
def handle_item_name (label : String) (d : Session) (t : String) : BotState × Reply :=
  if t = backBtn then
    (⟨some Stage.chooseCategory, d⟩,
     Reply.showPrompt Stage.chooseCategory "Выберите категорию товара:")
  else if t = cancelBtn then cancelApp
  else if !(validate_text t 2 200) then
    (⟨some Stage.getItemName, d⟩,
     Reply.showPrompt Stage.getItemName
       "❌ Название должно быть от 2 до 100 символов. Попробуйте еще раз:")
  else
    (⟨some Stage.getPhotos,
      { d with item_name := some t, user_name := some label, photos := some [] }⟩,
     Reply.showPrompt Stage.getPhotos
       "📸 Пришлите фото товара (1-10 фото). Когда закончите, нажмите 📤 Далее")

/-- The text branch of `handle_photos`: Back discards the accumulated photo
list, Cancel clears everything, the advance token requires at least one photo,
any other text is ignored (`return GET_PHOTOS` without a reply). -/
def handle_photos_text (d : Session) (t : String) : BotState × Reply :=
  if t = backBtn then
    (⟨some Stage.getItemName, { d with photos := none }⟩,
     Reply.showPrompt Stage.getItemName "✏️ Введите название товара:")
  else if t = cancelBtn then cancelApp
  else if t = nextBtn then
    if (d.photos.getD []).length < 1 then
      (⟨some Stage.getPhotos, d⟩,
       Reply.showPrompt Stage.getPhotos "❌ Нужно отправить хотя бы 1 фото!")
    else
      (⟨some Stage.getDescription, d⟩,
       Reply.showPrompt Stage.getDescription
         "📝 Опишите товар (год, материал, особенности) или нажмите 'Нет информации'")
  else (⟨some Stage.getPhotos, d⟩, Reply.silent)

/-- The photo branch of `handle_photos`: initialise the list if absent,
deduplicate by file id, append, and acknowledge with either the running count
or the over-limit notice; duplicates produce no reply. The source appends even
past ten photos — only the reply text changes. -/
def handle_photos_image (d : Session) (fid : String) : BotState × Reply :=
  let ps := d.photos.getD []
  if ps.contains fid then (⟨some Stage.getPhotos, d⟩, Reply.silent)
  else
    let n := ps.length + 1
    if n ≤ 10 then
      (⟨some Stage.getPhotos, { d with photos := some (ps ++ [fid]) }⟩,
       Reply.showPrompt Stage.getPhotos
         ("📸 Получено фото " ++ toString n ++ "/10. Отправьте еще или нажмите 📤 Далее"))
    else
      (⟨some Stage.getPhotos, { d with photos := some (ps ++ [fid]) }⟩,
       Reply.showPrompt Stage.getPhotos
         "❌ Можно загрузить не более 10 фото. Нажмите 📤 Далее для продолжения")

/-- `handle_description`: Back, Cancel, the no-information sentinel, then
`validate_text` with bounds 2..500. -/
def handle_description (d : Session) (t : String) : BotState × Reply :=
  if t = backBtn then
    (⟨some Stage.getPhotos, d⟩,
     Reply.showPrompt Stage.getPhotos
       "📸 Пришлите фото товара (1-10 фото). Когда закончите, нажмите 📤 Далее")
  else if t = cancelBtn then cancelApp
  else if t = noInfoBtn then
    (⟨some Stage.getPrice, { d with description := some "Нет информации" }⟩,
     Reply.showPrompt Stage.getPrice "💵 Укажите цену в рублях (только цифры, больше 0):")
  else if !(validate_text t 2 500) then
    (⟨some Stage.getDescription, d⟩,
     Reply.showPrompt Stage.getDescription
       "❌ Описание должно быть от 2 до 500 символов. Попробуйте еще раз:")
  else
    (⟨some Stage.getPrice, { d with description := some t }⟩,
     Reply.showPrompt Stage.getPrice "💵 Укажите цену в рублях (только цифры, больше 0):")

/-- `handle_price`: Back, Cancel, then `validate_price`. -/
def handle_price (d : Session) (t : String) : BotState × Reply :=
  if t = backBtn then
    (⟨some Stage.getDescription, d⟩,
     Reply.showPrompt Stage.getDescription
       "📝 Опишите товар (год, материал, особенности) или нажмите 'Нет информации'")
  else if t = cancelBtn then cancelApp
  else if !(validate_price t) then
    (⟨some Stage.getPrice, d⟩,
     Reply.showPrompt Stage.getPrice
       "❌ Цена должна содержать только цифры (больше 0). Попробуйте еще раз:")
  else
    (⟨some Stage.getCity, { d with price := some t }⟩,
     Reply.showPrompt Stage.getCity "🏙 Укажите ваш город:")

/-- `handle_city`: Back, Cancel, then `validate_text` with bounds 2..50. -/
def handle_city (d : Session) (t : String) : BotState × Reply :=
  if t = backBtn then
    (⟨some Stage.getPrice, d⟩,
     Reply.showPrompt Stage.getPrice "💵 Укажите цену в рублях (только цифры, больше 0):")
  else if t = cancelBtn then cancelApp
  else if !(validate_text t 2 50) then
    (⟨some Stage.getCity, d⟩,
     Reply.showPrompt Stage.getCity
       "❌ Название города должно быть от 2 до 50 символов. Попробуйте еще раз:")
  else
    (⟨some Stage.getDelivery, { d with city := some t }⟩,
     Reply.showPrompt Stage.getDelivery "🚚 Выберите способ передачи товара:")

/-- `handle_delivery`: Back, Cancel, a strict two-option check, then the branch
to the pickup-address stage or directly to contacts. -/
def handle_delivery (d : Session) (t : String) : BotState × Reply :=
  if t = backBtn then
    (⟨some Stage.getCity, d⟩, Reply.showPrompt Stage.getCity "🏙 Укажите ваш город:")
  else if t = cancelBtn then cancelApp
  else if !(t = pickupBtn || t = deliverBtn) then
    (⟨some Stage.getDelivery, d⟩,
     Reply.showPrompt Stage.getDelivery "Пожалуйста, выберите вариант из предложенных:")
  else if t = pickupBtn then
    (⟨some Stage.getPickupAddress, { d with delivery := some t }⟩,
     Reply.showPrompt Stage.getPickupAddress "🏠 Укажите адрес самовывоза:")
  else
    (⟨some Stage.getContacts, { d with delivery := some t }⟩,
     Reply.showPrompt Stage.getContacts "📞 Укажите телефон для связи (формат: +7XXX...):")

/-- `handle_pickup_address`: Back, Cancel, then `validate_text` with bounds 5..200. -/
def handle_pickup_address (d : Session) (t : String) : BotState × Reply :=
  if t = backBtn then
    (⟨some Stage.getDelivery, d⟩,
     Reply.showPrompt Stage.getDelivery "🚚 Выберите способ передачи товара:")
  else if t = cancelBtn then cancelApp
  else if !(validate_text t 5 200) then
    (⟨some Stage.getPickupAddress, d⟩,
     Reply.showPrompt Stage.getPickupAddress
       "❌ Адрес должен быть от 5 до 200 символов. Попробуйте еще раз:")
  else
    (⟨some Stage.getContacts, { d with pickup_address := some t }⟩,
     Reply.showPrompt Stage.getContacts "📞 Укажите телефон для связи (формат: +7XXX...):")

/-- `handle_contacts`: Back branches on the stored delivery choice; after a
valid phone the source writes `contacts` and then builds the review summary by
direct dictionary indexing — a missing required key there raises `KeyError`,
which the surrounding `except` turns into an error termination that leaves
`user_data` untouched. -/
def handle_contacts (d : Session) (t : String) : BotState × Reply :=
  if t = backBtn then
    if d.delivery = some pickupBtn then
      (⟨some Stage.getPickupAddress, d⟩,
       Reply.showPrompt Stage.getPickupAddress "🏠 Укажите адрес самовывоза:")
    else
      (⟨some Stage.getDelivery, d⟩,
       Reply.showPrompt Stage.getDelivery "🚚 Выберите способ передачи товара:")
  else if t = cancelBtn then cancelApp
  else if !(validate_phone t) then
    (⟨some Stage.getContacts, d⟩,
     Reply.showPrompt Stage.getContacts
       "❌ Введите корректный номер телефона (например: +79161234567):")
  else
    let d2 := { d with contacts := some t }
    match d2.user_name, d2.item_name, d2.category, d2.price, d2.city, d2.delivery with
    | some u, some iname, some cat, some pr, some ci, some del =>
      (⟨some Stage.confirm, d2⟩,
       Reply.showPrompt Stage.confirm
         (userSummary u iname cat (d2.description.getD "Нет информации") pr ci del
           d2.pickup_address t))
    | _, _, _, _, _, _ => (⟨none, d2⟩, Reply.terminated "error")

/-- `confirm_application`: Back to contacts, the Confirm-stage cancel token,
the catch-all re-prompt for any other non-confirm text, the required-field
check (ending the conversation *without* clearing `user_data` when a field is
missing), the `user_name` dictionary access (a `KeyError` path analogous to
`handle_contacts`), and finally the dispatch of the admin message with the
photo list truncated to ten, after which `user_data` is cleared. -/
def confirm_application (d : Session) (t : String) : BotState × Reply :=
  if t = backBtn then
    (⟨some Stage.getContacts, d⟩,
     Reply.showPrompt Stage.getContacts "📞 Укажите телефон для связи:")
  else if t = cancelBtn2 then cancelApp
  else if t ≠ sendBtn then
    (⟨some Stage.confirm, d⟩,
     Reply.showPrompt Stage.confirm "Пожалуйста, используйте кнопки для подтверждения")
  else if requiredMissing d then
    (⟨none, d⟩, Reply.terminated "internal-error")
  else
    match d.user_name, d.item_name, d.category, d.price, d.city, d.delivery, d.contacts with
    | some u, some iname, some cat, some pr, some ci, some del, some cont =>
      let media := match d.photos with
        | some ps => if ps = [] then [] else ps.take 10
        | none => []
      (⟨none, emptySession⟩,
       Reply.dispatch
         ⟨adminMessage u iname cat (d.description.getD "Нет информации") pr ci del
            d.pickup_address cont,
          media⟩)
    | _, _, _, _, _, _, _ => (⟨none, d⟩, Reply.terminated "error")

/-- The core entry point (`handleEvent` of the spec): dispatch one incoming
event against the user's conversation state.  The `/start` entry command always
restarts (the handler clears `user_data` and prompts for the category;
`allow_reentry=True` lets it fire mid-conversation).  Text and photo events are
routed by the `ConversationHandler` state table of `main()`; with no active
conversation they match no handler and are dropped. -/
def handleEvent (label : String) (st : BotState) (e : Event) : BotState × Reply :=
  match e with
  | Event.entry =>
    (⟨some Stage.chooseCategory, emptySession⟩,
     Reply.showPrompt Stage.chooseCategory "Выберите категорию товара:")
  | Event.text t =>
    match st.conv with
    | none => (st, Reply.silent)
    | some Stage.chooseCategory => handle_category st.data t
    | some Stage.getItemName => handle_item_name label st.data t
    | some Stage.getPhotos => handle_photos_text st.data t
    | some Stage.getDescription => handle_description st.data t
    | some Stage.getPrice => handle_price st.data t
    | some Stage.getCity => handle_city st.data t
    | some Stage.getDelivery => handle_delivery st.data t
    | some Stage.getPickupAddress => handle_pickup_address st.data t
    | some Stage.getContacts => handle_contacts st.data t
    | some Stage.confirm => confirm_application st.data t
  | Event.image fid =>
    match st.conv with
    | some Stage.getPhotos => handle_photos_image st.data fid
    | _ => (st, Reply.silent)

/-- The state before any event: no conversation, empty `user_data`. -/
def initState : BotState := ⟨none, emptySession⟩

/-- Run a list of events in arrival order, keeping the resulting state. -/
def runEvents (label : String) (st : BotState) (evs : List Event) : BotState :=
  evs.foldl (fun s e => (handleEvent label s e).1) st

/-- A state the machine can actually be in: produced by some event history. -/
def Reachable (st : BotState) : Prop :=
  ∃ label evs, runEvents label initState evs = st

set_option maxRecDepth 16000

/-- The stage each stage's Back button returns to, as hard-coded in the
handlers; the Contacts stage branches on the stored delivery choice. -/
def backTargetOf (stage : Stage) (d : Session) : Stage :=
  match stage with
  | Stage.chooseCategory => Stage.chooseCategory
  | Stage.getItemName => Stage.chooseCategory
  | Stage.getPhotos => Stage.getItemName
  | Stage.getDescription => Stage.getPhotos
  | Stage.getPrice => Stage.getDescription
  | Stage.getCity => Stage.getPrice
  | Stage.getDelivery => Stage.getCity
  | Stage.getPickupAddress => Stage.getDelivery
  | Stage.getContacts =>
    if d.delivery = some pickupBtn then Stage.getPickupAddress else Stage.getDelivery
  | Stage.confirm => Stage.getContacts

/-- The validation rule each stage applies to a non-Back, non-Cancel text
input, where it has one: the text-length stages, the price and phone stages,
and the two-option check of the delivery stage. -/
def validatorOf (stage : Stage) : Option (String → Bool) :=
  match stage with
  | Stage.getItemName => some (fun t => validate_text t 2 200)
  | Stage.getDescription => some (fun t => validate_text t 2 500)
  | Stage.getPrice => some validate_price
  | Stage.getCity => some (fun t => validate_text t 2 50)
  | Stage.getDelivery => some (fun t => t = pickupBtn || t = deliverBtn)
  | Stage.getPickupAddress => some (fun t => validate_text t 5 200)
  | Stage.getContacts => some validate_phone
  | _ => none

/-- Contiguous-substring containment: `v` occurs as a factor of `s`. -/
def strContains (s v : String) : Prop :=
  ∃ l r : String, s = l ++ v ++ r

theorem strContains_empty (s : String) : strContains s "" :=
  ⟨s, "", by simp⟩

theorem strContains_endsWith (a v : String) : strContains (a ++ v) v :=
  ⟨a, "", by simp⟩

theorem strContains_appendL (s t v : String) (h : strContains s v) :
    strContains (s ++ t) v := by
  obtain ⟨l, r, rfl⟩ := h
  exact ⟨l, r ++ t, by simp [String.append_assoc]⟩

theorem strContains_appendR (s t v : String) (h : strContains s v) :
    strContains (t ++ s) v := by
  obtain ⟨l, r, rfl⟩ := h
  exact ⟨t ++ l, r, by simp [String.append_assoc]⟩

/-- `handle_item_name` writes `item_name` and `user_name` together, and no
branch removes one of them without the other, so in every reachable session a
present `item_name` guarantees a present `user_name`. -/
def nameInv (d : Session) : Bool :=
  !d.item_name.isSome || d.user_name.isSome

theorem nameInv_step (label : String) (st : BotState) (e : Event)
    (h : nameInv st.data = true) : nameInv (handleEvent label st e).1.data = true := by
  obtain ⟨conv, cat, iname, uname, ph, descr, pr, ci, del, pa, cont⟩ := st
  cases e with
  | entry => rfl
  | text t =>
    cases conv with
    | none => exact h
    | some stage =>
      cases stage <;>
        simp only [handleEvent, handle_category, handle_item_name, handle_photos_text,
          handle_description, handle_price, handle_city, handle_delivery,
          handle_pickup_address, handle_contacts, confirm_application, cancelApp,
          emptySession] <;>
        (repeat' split) <;> simp_all [nameInv, emptySession]
  | image fid =>
    cases conv with
    | none => exact h
    | some stage =>
      cases stage <;>
        simp only [handleEvent, handle_photos_image] <;>
        (repeat' split) <;> simp_all [nameInv]

theorem nameInv_run (label : String) (evs : List Event) :
    ∀ st : BotState, nameInv st.data = true →
      nameInv (runEvents label st evs).data = true := by
  induction evs with
  | nil => intro st h; exact h
  | cons e rest ih =>
    intro st h
    exact ih _ (nameInv_step label st e h)

theorem reachable_nameInv (st : BotState) (h : Reachable st) :
    nameInv st.data = true := by
  obtain ⟨label, evs, rfl⟩ := h
  exact nameInv_run label evs initState rfl

/-- A complete happy-path event trace through the pickup branch, ending at the
Confirm stage. -/
def demoEvents : List Event :=
  [Event.entry, Event.text "💰 Монеты/купюры", Event.text "Старый рубль",
   Event.image "A", Event.text nextBtn, Event.text noInfoBtn, Event.text "500",
   Event.text "Таруса", Event.text pickupBtn, Event.text "Улица Ленина 5",
   Event.text "+79161234567"]

/-- The state at the Confirm stage produced by `demoEvents`. -/
def demoState : BotState := runEvents "Иван (@ivan)" initState demoEvents

/-- Events reaching the Photos stage and then sending ten distinct photos. -/
def tenPhotoEvents : List Event :=
  [Event.entry, Event.text "📦 Другое", Event.text "Шляпа",
   Event.image "p01", Event.image "p02", Event.image "p03", Event.image "p04",
   Event.image "p05", Event.image "p06", Event.image "p07", Event.image "p08",
   Event.image "p09", Event.image "p10"]

/-- The state at the Photos stage holding ten accumulated references. -/
def tenPhotoState : BotState := runEvents "U" initState tenPhotoEvents

/-- The state after an eleventh distinct reference arrives. -/
def elevenPhotoState : BotState :=
  (handleEvent "U" tenPhotoState (Event.image "p11")).1

/-- Driving the eleven-photo session on to the Confirm stage. -/
def elevenConfirmState : BotState :=
  runEvents "U" elevenPhotoState
    [Event.text nextBtn, Event.text noInfoBtn, Event.text "500", Event.text "Москва",
     Event.text deliverBtn, Event.text "+79161234567"]

/-- C1: counterexample — after eleven distinct image references the session's
photo list holds eleven entries, not ten: the over-limit reference was appended. -/
theorem C1_counterexample :
    (elevenPhotoState.data.photos.getD []).length = 11 ∧
    (elevenPhotoState.data.photos.getD []).length ≠ 10 := by
  have h : (elevenPhotoState.data.photos.getD []).length = 11 := rfl
  exact ⟨h, by rw [h]; omega⟩

/-- C1 (amended): the eleventh distinct image reference is still acknowledged
with a prompt (no error termination), but it IS appended — the session's photo
list reaches eleven references; only the Submission built at confirmation
truncates the list to ten. -/
theorem C1_amended :
    tenPhotoState.data.photos =
      some ["p01", "p02", "p03", "p04", "p05", "p06", "p07", "p08", "p09", "p10"] ∧
    (handleEvent "U" tenPhotoState (Event.image "p11")).2 =
      Reply.showPrompt Stage.getPhotos
        "❌ Можно загрузить не более 10 фото. Нажмите 📤 Далее для продолжения" ∧
    elevenPhotoState.data.photos =
      some ["p01", "p02", "p03", "p04", "p05", "p06", "p07", "p08", "p09", "p10", "p11"] ∧
    (∃ sub : Submission,
      (handleEvent "U" elevenConfirmState (Event.text sendBtn)).2 = Reply.dispatch sub ∧
      sub.imageRefs.length = 10) :=
  ⟨rfl, rfl, rfl, ⟨_, rfl, rfl⟩⟩

/-- C2: counterexample — at the Confirm stage the universal Cancel token
`"❌ Отмена"` does not destroy the session: the handler answers with the
catch-all confirm re-prompt and the session persists unchanged, so the claim
fails at the Confirm stage. -/
theorem C2_counterexample :
    handleEvent "Иван (@ivan)" demoState (Event.text cancelBtn) =
      (demoState, Reply.showPrompt Stage.confirm
        "Пожалуйста, используйте кнопки для подтверждения") ∧
    demoState.conv = some Stage.confirm := ⟨rfl, rfl⟩

/-- C2 (amended): at every stage except Confirm the token `"❌ Отмена"`, and at
Confirm the token `"❌ Отменить"`, destroys the session and yields
`Terminated("cancelled")`; afterwards text and image events are no-ops and only
the entry command restarts a conversation. -/
theorem C2_amended (label : String) (stage : Stage) (d : Session) (t : String)
    (htok : (stage ≠ Stage.confirm ∧ t = cancelBtn) ∨
            (stage = Stage.confirm ∧ t = cancelBtn2)) :
    handleEvent label ⟨some stage, d⟩ (Event.text t) =
      (⟨none, emptySession⟩, Reply.terminated "cancelled") ∧
    (∀ s : String, handleEvent label ⟨none, emptySession⟩ (Event.text s) =
      (⟨none, emptySession⟩, Reply.silent)) ∧
    (∀ f : String, handleEvent label ⟨none, emptySession⟩ (Event.image f) =
      (⟨none, emptySession⟩, Reply.silent)) ∧
    handleEvent label ⟨none, emptySession⟩ Event.entry =
      (⟨some Stage.chooseCategory, emptySession⟩,
       Reply.showPrompt Stage.chooseCategory "Выберите категорию товара:") := by
  refine ⟨?_, fun s => rfl, fun f => rfl, rfl⟩
  rcases htok with ⟨hne, rfl⟩ | ⟨rfl, rfl⟩
  · cases stage
    case confirm => exact absurd rfl hne
    all_goals rfl
  · rfl

/-- C2 (witness): cancelling from the Price stage with a populated session. -/
theorem C2_witness :
    handleEvent "U" ⟨some Stage.getPrice, demoState.data⟩ (Event.text cancelBtn) =
      (⟨none, emptySession⟩, Reply.terminated "cancelled") ∧
    (∀ s : String, handleEvent "U" ⟨none, emptySession⟩ (Event.text s) =
      (⟨none, emptySession⟩, Reply.silent)) ∧
    (∀ f : String, handleEvent "U" ⟨none, emptySession⟩ (Event.image f) =
      (⟨none, emptySession⟩, Reply.silent)) ∧
    handleEvent "U" ⟨none, emptySession⟩ Event.entry =
      (⟨some Stage.chooseCategory, emptySession⟩,
       Reply.showPrompt Stage.chooseCategory "Выберите категорию товара:") :=
  C2_amended "U" Stage.getPrice demoState.data cancelBtn
    (Or.inl ⟨fun h => Stage.noConfusion h, rfl⟩)

/-- Reaching the Price stage with `price` already committed: enter a valid
price (moving to City), then press Back once. -/
def priceBackState : BotState :=
  runEvents "U" initState
    [Event.entry, Event.text "📦 Другое", Event.text "Шляпа", Event.image "p01",
     Event.text nextBtn, Event.text noInfoBtn, Event.text "500", Event.text backBtn]

/-- C3: counterexample — from the Price stage with `price = "500"` committed,
the Back token moves to Description but does not remove `price` from the
session, contradicting the claimed rollback. -/
theorem C3_counterexample :
    priceBackState.conv = some Stage.getPrice ∧
    priceBackState.data.price = some "500" ∧
    (handleEvent "U" priceBackState (Event.text backBtn)).1.conv =
      some Stage.getDescription ∧
    (handleEvent "U" priceBackState (Event.text backBtn)).1.data.price = some "500" ∧
    (handleEvent "U" priceBackState (Event.text backBtn)).1.data.price ≠ none := by
  refine ⟨rfl, rfl, rfl, rfl, ?_⟩
  intro h
  rw [show (handleEvent "U" priceBackState (Event.text backBtn)).1.data.price =
      some "500" from rfl] at h
  exact Option.noConfusion h

/-- C3 (amended): from every non-entry stage the Back token moves
`currentStage` to its backward target and emits that target's prompt, but the
session's fields are left unchanged — no field rollback — except at the Photos
stage, whose Back discards the whole accumulated photo list. -/
theorem C3_amended (label : String) (stage : Stage) (d : Session)
    (hne : stage ≠ Stage.chooseCategory) :
    (handleEvent label ⟨some stage, d⟩ (Event.text backBtn)).1 =
      ⟨some (backTargetOf stage d),
       if stage = Stage.getPhotos then { d with photos := none } else d⟩ ∧
    ∃ txt, (handleEvent label ⟨some stage, d⟩ (Event.text backBtn)).2 =
      Reply.showPrompt (backTargetOf stage d) txt := by
  cases stage
  case chooseCategory => exact absurd rfl hne
  case getContacts =>
    by_cases hdel : d.delivery = some pickupBtn
    · exact ⟨by simp [handleEvent, handle_contacts, backTargetOf, hdel],
        ⟨"🏠 Укажите адрес самовывоза:",
         by simp [handleEvent, handle_contacts, backTargetOf, hdel]⟩⟩
    · exact ⟨by simp [handleEvent, handle_contacts, backTargetOf, hdel],
        ⟨"🚚 Выберите способ передачи товара:",
         by simp [handleEvent, handle_contacts, backTargetOf, hdel]⟩⟩
  all_goals exact ⟨rfl, ⟨_, rfl⟩⟩

/-- C3 (witness): Back from the Price stage at a populated session. -/
theorem C3_witness :
    (handleEvent "U" ⟨some Stage.getPrice, priceBackState.data⟩
        (Event.text backBtn)).1 =
      ⟨some (backTargetOf Stage.getPrice priceBackState.data),
       if Stage.getPrice = Stage.getPhotos
         then { priceBackState.data with photos := none } else priceBackState.data⟩ ∧
    ∃ txt, (handleEvent "U" ⟨some Stage.getPrice, priceBackState.data⟩
        (Event.text backBtn)).2 =
      Reply.showPrompt (backTargetOf Stage.getPrice priceBackState.data) txt :=
  C3_amended "U" Stage.getPrice priceBackState.data (fun h => Stage.noConfusion h)

theorem adminMessage_contains (u iname cat descr pr ci del : String)
    (pickup : Option String) (cont : String) :
    strContains (adminMessage u iname cat descr pr ci del pickup cont) iname ∧
    strContains (adminMessage u iname cat descr pr ci del pickup cont) cat ∧
    strContains (adminMessage u iname cat descr pr ci del pickup cont) pr ∧
    strContains (adminMessage u iname cat descr pr ci del pickup cont) ci ∧
    strContains (adminMessage u iname cat descr pr ci del pickup cont) del ∧
    strContains (adminMessage u iname cat descr pr ci del pickup cont) cont ∧
    (∀ a : String, pickup = some a → a ≠ "" →
      strContains (adminMessage u iname cat descr pr ci del pickup cont) a) := by
  unfold adminMessage
  refine ⟨?_, ?_, ?_, ?_, ?_, ?_, ?_⟩
  · exact strContains_appendL _ _ _ (strContains_appendL _ _ _ (strContains_appendL _ _ _
      (strContains_appendL _ _ _ (strContains_appendL _ _ _ (strContains_appendL _ _ _
      (strContains_appendL _ _ _ (strContains_appendR _ _ _
        (strContains_endsWith _ _))))))))
  · exact strContains_appendL _ _ _ (strContains_appendL _ _ _ (strContains_appendL _ _ _
      (strContains_appendL _ _ _ (strContains_appendL _ _ _ (strContains_appendL _ _ _
      (strContains_appendR _ _ _ (strContains_endsWith _ _)))))))
  · exact strContains_appendL _ _ _ (strContains_appendL _ _ _ (strContains_appendL _ _ _
      (strContains_appendL _ _ _ (strContains_appendR _ _ _ (strContains_appendL _ _ _
      (strContains_endsWith _ _))))))
  · exact strContains_appendL _ _ _ (strContains_appendL _ _ _ (strContains_appendL _ _ _
      (strContains_appendR _ _ _ (strContains_endsWith _ _))))
  · exact strContains_appendL _ _ _ (strContains_appendL _ _ _ (strContains_appendR _ _ _
      (strContains_endsWith _ _)))
  · exact strContains_appendR _ _ _ (strContains_endsWith _ _)
  · intro a ha hne
    subst ha
    simp only [pickupLine, if_neg hne]
    exact strContains_appendL _ _ _ (strContains_appendR _ _ _
      (strContains_endsWith _ _))

/-- C4: confirming at the Confirm stage of a reachable session with all six
required fields present (and a pickup address present when delivery is pickup)
produces exactly one dispatched Submission: the conversation ends with the
accumulated data cleared, the submission's image list is the accumulated photo
list truncated to ten, and its summary text contains every committed required
value, including the pickup address when delivery is pickup. -/
theorem C4_confirm_submission (label : String) (st : BotState)
    (iname cat pr ci del cont : String)
    (hr : Reachable st) (hconv : st.conv = some Stage.confirm)
    (h1 : st.data.item_name = some iname) (h2 : st.data.category = some cat)
    (h3 : st.data.price = some pr) (h4 : st.data.city = some ci)
    (h5 : st.data.delivery = some del) (h6 : st.data.contacts = some cont)
    (h7 : del = pickupBtn → st.data.pickup_address.isSome) :
    ∃ sub : Submission,
      handleEvent label st (Event.text sendBtn) =
        (⟨none, emptySession⟩, Reply.dispatch sub) ∧
      sub.imageRefs.length = min (st.data.photos.getD []).length 10 ∧
      strContains sub.summaryText iname ∧ strContains sub.summaryText cat ∧
      strContains sub.summaryText pr ∧ strContains sub.summaryText ci ∧
      strContains sub.summaryText del ∧ strContains sub.summaryText cont ∧
      (del = pickupBtn →
        ∃ a, st.data.pickup_address = some a ∧ strContains sub.summaryText a) := by
  have hinv := reachable_nameInv st hr
  rw [nameInv, h1] at hinv
  simp only [Option.isSome_some, Bool.not_true, Bool.false_or] at hinv
  obtain ⟨u, hu⟩ := Option.isSome_iff_exists.mp hinv
  have hmain : handleEvent label st (Event.text sendBtn) =
      confirm_application st.data sendBtn := by
    unfold handleEvent
    rw [hconv]
  rw [hmain]
  unfold confirm_application
  rw [if_neg (by decide : ¬ (sendBtn = backBtn)),
    if_neg (by decide : ¬ (sendBtn = cancelBtn2)),
    if_neg (by decide : ¬ (sendBtn ≠ sendBtn)),
    if_neg (by simp [requiredMissing, h1, h2, h3, h4, h5, h6]),
    hu, h1, h2, h3, h4, h5, h6]
  refine ⟨_, rfl, ?_, ?_, ?_, ?_, ?_, ?_, ?_, ?_⟩
  · cases hph : st.data.photos with
    | none => simp
    | some ps =>
      by_cases hpe : ps = []
      · subst hpe; simp
      · simp [hpe, List.length_take, Nat.min_comm]
  · exact (adminMessage_contains u iname cat _ pr ci del _ cont).1
  · exact (adminMessage_contains u iname cat _ pr ci del _ cont).2.1
  · exact (adminMessage_contains u iname cat _ pr ci del _ cont).2.2.1
  · exact (adminMessage_contains u iname cat _ pr ci del _ cont).2.2.2.1
  · exact (adminMessage_contains u iname cat _ pr ci del _ cont).2.2.2.2.1
  · exact (adminMessage_contains u iname cat _ pr ci del _ cont).2.2.2.2.2.1
  · intro hdel
    obtain ⟨a, ha⟩ := Option.isSome_iff_exists.mp (h7 hdel)
    by_cases he : a = ""
    · subst he
      exact ⟨"", ha, strContains_empty _⟩
    · exact ⟨a, ha,
        (adminMessage_contains u iname cat _ pr ci del _ cont).2.2.2.2.2.2 a ha he⟩

/-- C4 (witness): the happy-path pickup-branch session dispatches a submission
carrying its one photo and a summary containing every committed field. -/
theorem C4_witness :
    ∃ sub : Submission,
      handleEvent "Иван (@ivan)" demoState (Event.text sendBtn) =
        (⟨none, emptySession⟩, Reply.dispatch sub) ∧
      sub.imageRefs.length = min (demoState.data.photos.getD []).length 10 ∧
      strContains sub.summaryText "Старый рубль" ∧
      strContains sub.summaryText "💰 Монеты/купюры" ∧
      strContains sub.summaryText "500" ∧
      strContains sub.summaryText "Таруса" ∧
      strContains sub.summaryText pickupBtn ∧
      strContains sub.summaryText "+79161234567" ∧
      (pickupBtn = pickupBtn →
        ∃ a, demoState.data.pickup_address = some a ∧
          strContains sub.summaryText a) :=
  C4_confirm_submission "Иван (@ivan)" demoState "Старый рубль" "💰 Монеты/купюры"
    "500" "Таруса" pickupBtn "+79161234567"
    ⟨"Иван (@ivan)", demoEvents, rfl⟩ rfl rfl rfl rfl rfl rfl rfl (fun _ => rfl)

/-- A 150-character item name; its stripped length is 150, over the documented
2..100 bound. -/
def longName : String := String.mk (List.replicate 150 'a')

/-- C5: the code accepts the 150-character item name — the `validate_text` call
in `handle_item_name` passes no bounds, so Python's default `max_len=200`
applies — writing `item_name` and advancing to Photos, although the prompt and
error message of the same handler state the 2..100 bound the claim gives. -/
theorem C5_code_behavior :
    (pyStrip longName.data).length = 150 ∧
    100 < (pyStrip longName.data).length ∧
    validate_text longName 2 200 = true ∧
    handleEvent "U" ⟨some Stage.getItemName, emptySession⟩ (Event.text longName) =
      (⟨some Stage.getPhotos,
        { emptySession with item_name := some longName,
                            user_name := some "U",
                            photos := some [] }⟩,
       Reply.showPrompt Stage.getPhotos
         "📸 Пришлите фото товара (1-10 фото). Когда закончите, нажмите 📤 Далее") := by
  have h : (pyStrip longName.data).length = 150 := rfl
  exact ⟨h, by rw [h]; omega, rfl, rfl⟩

/-- The inline error re-prompt each validating stage sends on a rejected input. -/
def errPromptOf (stage : Stage) : String :=
  match stage with
  | Stage.getItemName => "❌ Название должно быть от 2 до 100 символов. Попробуйте еще раз:"
  | Stage.getDescription => "❌ Описание должно быть от 2 до 500 символов. Попробуйте еще раз:"
  | Stage.getPrice => "❌ Цена должна содержать только цифры (больше 0). Попробуйте еще раз:"
  | Stage.getCity => "❌ Название города должно быть от 2 до 50 символов. Попробуйте еще раз:"
  | Stage.getDelivery => "Пожалуйста, выберите вариант из предложенных:"
  | Stage.getPickupAddress => "❌ Адрес должен быть от 5 до 200 символов. Попробуйте еще раз:"
  | Stage.getContacts => "❌ Введите корректный номер телефона (например: +79161234567):"
  | _ => ""

/-- C6: an input rejected by the current stage's validator (and equal to
neither the Back nor the Cancel token) re-emits the current stage's prompt with
the inline error notice; the stage does not advance and the session's fields
are unchanged. -/
theorem C6_reject_unchanged (label : String) (stage : Stage) (v : String → Bool)
    (t : String) (d : Session) (hv : validatorOf stage = some v)
    (hrej : v t = false) (hb : t ≠ backBtn) (hc : t ≠ cancelBtn) :
    handleEvent label ⟨some stage, d⟩ (Event.text t) =
      (⟨some stage, d⟩, Reply.showPrompt stage (errPromptOf stage)) := by
  cases stage <;> simp only [validatorOf] at hv
  case chooseCategory => exact Option.noConfusion hv
  case getPhotos => exact Option.noConfusion hv
  case confirm => exact Option.noConfusion hv
  case getItemName =>
    obtain rfl := Option.some.inj hv
    simp only at hrej
    simp [handleEvent, handle_item_name, errPromptOf, hb, hc, hrej]
  case getDescription =>
    obtain rfl := Option.some.inj hv
    simp only at hrej
    have hni : t ≠ noInfoBtn := by
      intro he
      rw [he] at hrej
      exact absurd hrej (by decide)
    simp [handleEvent, handle_description, errPromptOf, hb, hc, hni, hrej]
  case getPrice =>
    obtain rfl := Option.some.inj hv
    simp [handleEvent, handle_price, errPromptOf, hb, hc, hrej]
  case getCity =>
    obtain rfl := Option.some.inj hv
    simp only at hrej
    simp [handleEvent, handle_city, errPromptOf, hb, hc, hrej]
  case getDelivery =>
    obtain rfl := Option.some.inj hv
    simp only [Bool.or_eq_false_iff, decide_eq_false_iff_not] at hrej
    simp [handleEvent, handle_delivery, errPromptOf, hb, hc, hrej.1, hrej.2]
  case getPickupAddress =>
    obtain rfl := Option.some.inj hv
    simp only at hrej
    simp [handleEvent, handle_pickup_address, errPromptOf, hb, hc, hrej]
  case getContacts =>
    obtain rfl := Option.some.inj hv
    simp [handleEvent, handle_contacts, errPromptOf, hb, hc, hrej]

/-- C6 (witness): the rejected price `"0"` leaves the Price stage and an empty
session unchanged. -/
theorem C6_witness :
    handleEvent "U" ⟨some Stage.getPrice, emptySession⟩ (Event.text "0") =
      (⟨some Stage.getPrice, emptySession⟩,
       Reply.showPrompt Stage.getPrice (errPromptOf Stage.getPrice)) :=
  C6_reject_unchanged "U" Stage.getPrice validate_price "0" emptySession rfl rfl
    (by decide) (by decide)

/-- C7: `validate_price` accepts exactly the nonempty decimal-digit strings of
positive value: `"0"`, `"-5"` and `"12a"` are rejected — each re-prompting and
leaving any Price-stage session unchanged — while `"007"` is accepted. -/
theorem C7_validate_price_spec :
    (∀ s : String, validate_price s = true ↔
      ((∀ c ∈ s.data, c.isDigit) ∧ 0 < digitsVal s)) ∧
    validate_price "0" = false ∧ validate_price "-5" = false ∧
    validate_price "12a" = false ∧ validate_price "007" = true ∧
    (∀ (lbl : String) (d : Session),
      handleEvent lbl ⟨some Stage.getPrice, d⟩ (Event.text "0") =
        (⟨some Stage.getPrice, d⟩,
         Reply.showPrompt Stage.getPrice (errPromptOf Stage.getPrice)) ∧
      handleEvent lbl ⟨some Stage.getPrice, d⟩ (Event.text "-5") =
        (⟨some Stage.getPrice, d⟩,
         Reply.showPrompt Stage.getPrice (errPromptOf Stage.getPrice)) ∧
      handleEvent lbl ⟨some Stage.getPrice, d⟩ (Event.text "12a") =
        (⟨some Stage.getPrice, d⟩,
         Reply.showPrompt Stage.getPrice (errPromptOf Stage.getPrice))) := by
  refine ⟨?_, rfl, rfl, rfl, rfl, fun lbl d => ⟨rfl, rfl, rfl⟩⟩
  intro s
  simp only [validate_price, pyIsdigit, Bool.and_eq_true, Bool.not_eq_true',
    List.all_eq_true, decide_eq_true_eq]
  constructor
  · rintro ⟨⟨_, hall⟩, hval⟩
    exact ⟨hall, hval⟩
  · rintro ⟨hall, hval⟩
    have hne : s.data.isEmpty = false := by
      cases hd : s.data with
      | nil =>
        simp only [digitsVal, hd, List.foldl_nil] at hval
        exact absurd hval (lt_irrefl 0)
      | cons a l => rfl
    exact ⟨⟨hne, hall⟩, hval⟩

/-- The state at the ItemName stage, with no `photos` and no `user_name` key. -/
def c8State : BotState :=
  runEvents "U" initState [Event.entry, Event.text "📦 Другое"]

/-- C8: counterexample — the single ItemName transition writes three keys at
once (`item_name`, `user_name` and `photos` initialised to the empty list), so
immediately afterwards, while at the Photos stage with no image event yet
processed, the session already contains a `photos` key. -/
theorem C8_counterexample :
    c8State.conv = some Stage.getItemName ∧
    c8State.data.photos = none ∧ c8State.data.user_name = none ∧
    (handleEvent "U" c8State (Event.text "Шляпа")).1 =
      ⟨some Stage.getPhotos,
       ⟨some "📦 Другое", some "Шляпа", some "U", some [], none, none, none, none,
        none, none⟩⟩ ∧
    (handleEvent "U" c8State (Event.text "Шляпа")).1.data.photos = some [] :=
  ⟨rfl, rfl, rfl, rfl, rfl⟩

/-- C8 (amended): fields are written only on successful validation, and every
stage transition writes exactly its own field — except the ItemName transition,
which writes `item_name`, `user_name` and initialises `photos` to the empty
list, so a `photos` key exists before the Photos stage has processed an image
event. -/
theorem C8_amended (label : String) (d : Session) (t : String)
    (hb : t ≠ backBtn) (hc : t ≠ cancelBtn) :
    (validate_text t 2 200 = true →
      (handleEvent label ⟨some Stage.getItemName, d⟩ (Event.text t)).1.data =
        { d with item_name := some t, user_name := some label, photos := some [] }) ∧
    (t ≠ noInfoBtn → validate_text t 2 500 = true →
      (handleEvent label ⟨some Stage.getDescription, d⟩ (Event.text t)).1.data =
        { d with description := some t }) ∧
    (validate_price t = true →
      (handleEvent label ⟨some Stage.getPrice, d⟩ (Event.text t)).1.data =
        { d with price := some t }) ∧
    (validate_text t 2 50 = true →
      (handleEvent label ⟨some Stage.getCity, d⟩ (Event.text t)).1.data =
        { d with city := some t }) ∧
    (validate_text t 5 200 = true →
      (handleEvent label ⟨some Stage.getPickupAddress, d⟩ (Event.text t)).1.data =
        { d with pickup_address := some t }) ∧
    ((t = pickupBtn ∨ t = deliverBtn) →
      (handleEvent label ⟨some Stage.getDelivery, d⟩ (Event.text t)).1.data =
        { d with delivery := some t }) ∧
    (validate_phone t = true →
      (handleEvent label ⟨some Stage.getContacts, d⟩ (Event.text t)).1.data =
        { d with contacts := some t }) ∧
    (handleEvent label ⟨some Stage.chooseCategory, d⟩ (Event.text t)).1.data =
      { d with category := some t } ∧
    (∀ fid : String, (d.photos.getD []).contains fid = false →
      (handleEvent label ⟨some Stage.getPhotos, d⟩ (Event.image fid)).1.data =
        { d with photos := some (d.photos.getD [] ++ [fid]) }) := by
  refine ⟨?_, ?_, ?_, ?_, ?_, ?_, ?_, ?_, ?_⟩
  · intro hval
    simp [handleEvent, handle_item_name, hb, hc, hval]
  · intro hni hval
    simp [handleEvent, handle_description, hb, hc, hni, hval]
  · intro hval
    simp [handleEvent, handle_price, hb, hc, hval]
  · intro hval
    simp [handleEvent, handle_city, hb, hc, hval]
  · intro hval
    simp [handleEvent, handle_pickup_address, hb, hc, hval]
  · rintro (rfl | rfl)
    · simp [handleEvent, handle_delivery, hb, hc]
    · simp [handleEvent, handle_delivery, hb, hc,
        (by decide : ¬ (deliverBtn = pickupBtn))]
  · intro hval
    simp only [handleEvent, handle_contacts, if_neg hb, if_neg hc, hval,
      Bool.not_true, Bool.false_eq_true, if_false]
    split <;> rfl
  · simp [handleEvent, handle_category, hc]
  · intro fid hfid
    simp only [handleEvent, handle_photos_image, hfid, Bool.false_eq_true, if_false]
    split <;> rfl

/-- C8 (witness): a single-field write at the City stage and the three-key
write at the ItemName stage, from an empty session. -/
theorem C8_witness :
    (handleEvent "U" ⟨some Stage.getCity, emptySession⟩ (Event.text "Москва")).1.data =
      { emptySession with city := some "Москва" } ∧
    (handleEvent "U" ⟨some Stage.getItemName, emptySession⟩
        (Event.text "Москва")).1.data =
      { emptySession with item_name := some "Москва", user_name := some "U",
                          photos := some [] } := by
  constructor
  · exact (C8_amended "U" emptySession "Москва" (by decide) (by decide)).2.2.2.1
      (by decide)
  · exact (C8_amended "U" emptySession "Москва" (by decide) (by decide)).1 (by decide)

/-- C9: option enforcement is asymmetric — CategorySelect stores any non-Cancel
free text as the category and advances, while DeliveryChoice rejects any text
outside its two fixed options (other than Back/Cancel) with a re-prompt and no
field write. -/
theorem C9_option_asymmetry (label : String) (d : Session) (t : String) :
    (t ≠ cancelBtn →
      handleEvent label ⟨some Stage.chooseCategory, d⟩ (Event.text t) =
        (⟨some Stage.getItemName, { d with category := some t }⟩,
         Reply.showPrompt Stage.getItemName
           "✏️ Введите название товара (от 2 до 100 символов):")) ∧
    (t ≠ backBtn → t ≠ cancelBtn → t ≠ pickupBtn → t ≠ deliverBtn →
      handleEvent label ⟨some Stage.getDelivery, d⟩ (Event.text t) =
        (⟨some Stage.getDelivery, d⟩,
         Reply.showPrompt Stage.getDelivery
           "Пожалуйста, выберите вариант из предложенных:")) := by
  constructor
  · intro hc
    simp [handleEvent, handle_category, hc]
  · intro hb hc hp hd
    simp [handleEvent, handle_delivery, hb, hc, hp, hd]

/-- C9 (witness): free text is stored as-is at CategorySelect and rejected at
DeliveryChoice. -/
theorem C9_witness :
    handleEvent "U" ⟨some Stage.chooseCategory, emptySession⟩
        (Event.text "свободный текст") =
      (⟨some Stage.getItemName, { emptySession with category := some "свободный текст" }⟩,
       Reply.showPrompt Stage.getItemName
         "✏️ Введите название товара (от 2 до 100 символов):") ∧
    handleEvent "U" ⟨some Stage.getDelivery, emptySession⟩
        (Event.text "свободный текст") =
      (⟨some Stage.getDelivery, emptySession⟩,
       Reply.showPrompt Stage.getDelivery
         "Пожалуйста, выберите вариант из предложенных:") :=
  ⟨(C9_option_asymmetry "U" emptySession "свободный текст").1 (by decide),
   (C9_option_asymmetry "U" emptySession "свободный текст").2 (by decide) (by decide)
     (by decide) (by decide)⟩

/-- C10: confirming with a required field missing terminates the conversation
with an internal-error outcome and dispatches nothing, but — unlike the cancel
path and the successful-submission path, which both clear the accumulated
data — the session's fields survive this path untouched. -/
theorem C10_incomplete_keeps_fields (label : String) (d : Session)
    (hmiss : requiredMissing d = true) :
    handleEvent label ⟨some Stage.confirm, d⟩ (Event.text sendBtn) =
      (⟨none, d⟩, Reply.terminated "internal-error") ∧
    handleEvent label ⟨some Stage.confirm, d⟩ (Event.text cancelBtn2) =
      (⟨none, emptySession⟩, Reply.terminated "cancelled") ∧
    (handleEvent label demoState (Event.text sendBtn)).1 = ⟨none, emptySession⟩ ∧
    (∃ sub, (handleEvent label demoState (Event.text sendBtn)).2 =
      Reply.dispatch sub) := by
  refine ⟨?_, rfl, rfl, ⟨_, rfl⟩⟩
  simp only [handleEvent, confirm_application,
    if_neg (by decide : ¬ (sendBtn = backBtn)),
    if_neg (by decide : ¬ (sendBtn = cancelBtn2)),
    if_neg (by decide : ¬ (sendBtn ≠ sendBtn)), hmiss, if_true]

/-- A session missing `contacts` (and more) but already holding data. -/
def partialSession : Session :=
  { emptySession with category := some "📦 Другое", item_name := some "Шляпа" }

/-- C10 (witness): a partially-filled session at the Confirm stage keeps its
accumulated fields on the internal-error path, while cancel and the demo
submission clear them. -/
theorem C10_witness :
    handleEvent "Иван (@ivan)" ⟨some Stage.confirm, partialSession⟩
        (Event.text sendBtn) =
      (⟨none, partialSession⟩, Reply.terminated "internal-error") ∧
    handleEvent "Иван (@ivan)" ⟨some Stage.confirm, partialSession⟩
        (Event.text cancelBtn2) =
      (⟨none, emptySession⟩, Reply.terminated "cancelled") ∧
    (handleEvent "Иван (@ivan)" demoState (Event.text sendBtn)).1 =
      ⟨none, emptySession⟩ ∧
    (∃ sub, (handleEvent "Иван (@ivan)" demoState (Event.text sendBtn)).2 =
      Reply.dispatch sub) :=
  C10_incomplete_keeps_fields "Иван (@ivan)" partialSession rfl

/-- C7 (witness): the biconditional instantiated at the leading-zero price
`"007"`, which the validator accepts. -/
theorem C7_witness :
    validate_price "007" = true ∧
    ((∀ c ∈ "007".data, c.isDigit) ∧ 0 < digitsVal "007") :=
  ⟨C7_validate_price_spec.2.2.2.2.1, (C7_validate_price_spec.1 "007").mp rfl⟩
